import Mathlib

/-!
Verification development for the SongPad song task tracker.

The embedding models, from the source:
  - the `songs` table row (Drizzle schema `songs`),
  - the Mureka webhook handler (POST route), its payload schema and update logic,
  - the song generation route (POST), its validation and persistence,
  - the song fetch route (GET) pull-path reconciliation per song,
  - the Mureka client helpers (`validateMurekaWebhook`, prompt resolution).

Timestamps are modelled as natural numbers (milliseconds); the database is a
list of rows; external HTTP calls are parameters of type
`Except String SongGenerationResponse` (error message on network or non-2xx
failure, mirroring the thrown `Error`).  JavaScript string truthiness is
modelled explicitly: an empty string is falsy.
-/

/-- One row of the `songs` table (Drizzle schema).  Nullable columns are
`Option`; `status` is a varchar with default value "preparing". -/
structure Song where
  id : String
  documentId : String
  murekaTaskId : String
  status : String
  songUrl : Option String
  failedReason : Option String
  prompt : Option String
  model : Option String
  createdAt : Nat
  updatedAt : Nat
deriving DecidableEq, Repr

/-- One row of the `documents` table (the fields the song routes read). -/
structure Document where
  id : String
  userId : String
  title : String
  content : Option String
  createdAt : Nat
  updatedAt : Nat
deriving DecidableEq, Repr

/-- One element of the `choices` array of a Mureka status report. -/
structure Choice where
  url : Option String
  duration : Option Nat
deriving DecidableEq, Repr

/-- The Mureka webhook payload after JSON parsing (`webhookPayloadSchema`
shape; the status enum check is performed by `webhookSafeParse`). -/
structure WebhookPayload where
  id : String
  status : String
  finished_at : Option Nat
  failed_reason : Option String
  choices : Option (List Choice)
deriving DecidableEq, Repr

/-- The Mureka API response for song generation and status query
(`SongGenerationResponse` in mureka.ts). -/
structure SongGenerationResponse where
  id : String
  created_at : Nat
  finished_at : Option Nat
  model : String
  status : String
  failed_reason : Option String
  choices : Option (List Choice)
deriving DecidableEq, Repr

/-- The request sent to the Mureka API (`SongGenerationRequest` in mureka.ts). -/
structure SongGenerationRequest where
  lyrics : String
  genre : Option String
  model : Option String
  prompt : Option String
  reference_id : Option String
  vocal_id : Option String
  melody_id : Option String
deriving DecidableEq, Repr

/-- The statuses accepted by `webhookPayloadSchema` (z.enum). -/
def validStatuses : List String :=
  ["preparing", "queued", "running", "succeeded", "failed", "timeouted", "cancelled"]

/-- The in-progress statuses of the song fetch route (`inProgressStatuses`). -/
def inProgressStatuses : List String := ["preparing", "queued", "running"]

/-- validateMurekaWebhook from mureka.ts: returns true unconditionally
(signature verification is not implemented). -/
def validateMurekaWebhook (_signature _body : String) : Bool := true

/-- The zod safeParse step of the webhook handler: the payload shape is
structural; the remaining check is that `status` is in the enum. -/
def webhookSafeParse (raw : WebhookPayload) : Option WebhookPayload :=
  if raw.status ∈ validStatuses then some raw else none

/-- The update block of the webhook handler (part_006 lines 111-137):
`updateData` always carries `status` and a fresh `updatedAt`; `songUrl` is
added only when status is "succeeded", `choices` is present and nonempty,
and the first choice has a truthy (non-empty) url; `failedReason` is added
only when status is "failed" and `failed_reason` is truthy. -/
def applyWebhookUpdate (song : Song) (payload : WebhookPayload) (now : Nat) : Song :=
  let s1 : Song := { song with status := payload.status, updatedAt := now }
  let s2 : Song :=
    if payload.status = "succeeded" then
      match payload.choices with
      | some (c :: _) =>
        match c.url with
        | some u => if u ≠ "" then { s1 with songUrl := some u } else s1
        | none => s1
      | _ => s1
    else s1
  if payload.status = "failed" then
    match payload.failed_reason with
    | some r => if r ≠ "" then { s2 with failedReason := some r } else s2
    | none => s2
  else s2

/-- The outcomes of the webhook POST handler. -/
inductive WebhookResponse where
  | invalidSignature
  | invalidJson
  | invalidPayload
  | songNotFound
  | ok
deriving DecidableEq, Repr

/-- The Mureka webhook POST handler (part_006 lines 30-160): signature
validation, JSON parse (`json = none` models a parse error), zod validation,
lookup of the song by `murekaTaskId`, then the update written by primary
key.  Returns the HTTP-level outcome and the resulting songs table. -/
def murekaWebhookPost (signature body : String) (json : Option WebhookPayload)
    (table : List Song) (now : Nat) : WebhookResponse × List Song :=
  if validateMurekaWebhook signature body = false then (.invalidSignature, table)
  else
    match json with
    | none => (.invalidJson, table)
    | some raw =>
      match webhookSafeParse raw with
      | none => (.invalidPayload, table)
      | some payload =>
        match table.find? (fun s => s.murekaTaskId = payload.id) with
        | none => (.songNotFound, table)
        | some song =>
          (.ok, table.map (fun s =>
            if s.id = song.id then applyWebhookUpdate s payload now else s))

/-- The update block of the pull path (part_006 GET, lines 383-409), applied
when the freshly fetched status differs from the stored one; identical field
rules to the webhook update. -/
def applyPullUpdate (song : Song) (murekaStatus : SongGenerationResponse) (now : Nat) : Song :=
  let s1 : Song := { song with status := murekaStatus.status, updatedAt := now }
  let s2 : Song :=
    if murekaStatus.status = "succeeded" then
      match murekaStatus.choices with
      | some (c :: _) =>
        match c.url with
        | some u => if u ≠ "" then { s1 with songUrl := some u } else s1
        | none => s1
      | _ => s1
    else s1
  if murekaStatus.status = "failed" then
    match murekaStatus.failed_reason with
    | some r => if r ≠ "" then { s2 with failedReason := some r } else s2
    | none => s2
  else s2

/-- Per-song reconciliation of the song fetch route (part_006 GET,
lines 352-465).  A terminal (not in-progress) song is returned unchanged and
no external query is issued (second component false).  For an in-progress
song the external status is fetched: on success the update is written only
when the status differs; on fetch failure the song is force-marked failed
with a synthetic reason.  Returns the resulting persisted record and whether
an external query was issued. -/
def reconcileSong (song : Song) (fetch : Except String SongGenerationResponse)
    (now : Nat) : Song × Bool :=
  if song.status ∈ inProgressStatuses then
    match fetch with
    | .ok murekaStatus =>
      if murekaStatus.status ≠ song.status then
        (applyPullUpdate song murekaStatus now, true)
      else (song, true)
    | .error msg =>
      ({ song with status := "failed",
                   failedReason := some ("API Error: " ++ msg),
                   updatedAt := now }, true)
  else (song, false)

/-- JavaScript whitespace test for the characters relevant to trim. -/
def isTrimWhitespace (c : Char) : Bool :=
  c = ' ' || c = '\t' || c = '\n' || c = '\r'

/-- Model of the JavaScript String.prototype.trim used by the generation
route: whitespace is removed from both ends of the string. -/
def jsTrim (s : String) : String :=
  ⟨((s.data.dropWhile isTrimWhitespace).reverse.dropWhile isTrimWhitespace).reverse⟩

/-- The raw JSON body of the song generation route before validation. -/
structure RawGenerateBody where
  documentId : Option String
  prompt : Option String
  model : Option String
deriving DecidableEq, Repr

/-- The validated body of the song generation route. -/
structure GenerateSongBody where
  documentId : String
  prompt : Option String
  model : Option String
deriving DecidableEq, Repr

/-- generateSongSchema.safeParse (part_007 lines 17-21): documentId is a
required string of length at least 1; prompt is an arbitrary optional
string; model, when present, must be one of the three enum values. -/
def parseGenerateSongBody (raw : RawGenerateBody) : Option GenerateSongBody :=
  match raw.documentId with
  | none => none
  | some d =>
    if d.length ≥ 1 then
      match raw.model with
      | none => some ⟨d, raw.prompt, none⟩
      | some m =>
        if m ∈ ["auto", "mureka-5.5", "mureka-6"] then some ⟨d, raw.prompt, some m⟩
        else none
    else none

/-- The `songRequest` object built by the song generation route (part_007
lines 99-103): lyrics from the document, model defaulted to "auto", and the
hardcoded style prompt "rap". -/
def songRequestOf (content : String) (model : Option String) : SongGenerationRequest :=
  { lyrics := content
    genre := none
    model := some (model.getD "auto")
    prompt := some "rap"
    reference_id := none
    vocal_id := none
    melody_id := none }

/-- generateGenrePrompt from mureka.ts. -/
def generateGenrePrompt (genre : String) : String :=
  if genre = "rap" then
    "hip-hop, rap, urban, strong beat, rhythmic, modern, male vocal"
  else if genre = "rock" then
    "rock, alternative, electric guitar, powerful drums, energetic, anthemic, male vocal"
  else
    "country, acoustic guitar, storytelling, heartfelt, melodic, warm, male vocal"

/-- The prompt actually forwarded to the Mureka HTTP API by generateSong
(mureka.ts): the request prompt when truthy, otherwise the genre prompt for
the request genre defaulted to "rap". -/
def resolvedPrompt (request : SongGenerationRequest) : String :=
  match request.prompt with
  | some p => if p ≠ "" then p else generateGenrePrompt (request.genre.getD "rap")
  | none => generateGenrePrompt (request.genre.getD "rap")

/-- The `songData` record inserted by the song generation route (part_007
lines 121-129): the external task id and status come from the Mureka
response, the persisted prompt is the hardcoded "rap", the model is the one
reported by the response; url and reason start null, timestamps default to
now. -/
def songDataOf (newId documentId : String) (resp : SongGenerationResponse)
    (now : Nat) : Song :=
  { id := newId
    documentId := documentId
    murekaTaskId := resp.id
    status := resp.status
    songUrl := none
    failedReason := none
    prompt := some "rap"
    model := some resp.model
    createdAt := now
    updatedAt := now }

/-- The outcomes of the song generation POST route. -/
inductive GenResponse where
  | unauthorized
  | invalidRequest
  | documentNotFound
  | accessDenied
  | noContent
  | apiError (msg : String)
  | created (songId taskId status : String)
deriving DecidableEq, Repr

/-- The song generation POST route (part_007 lines 26-171): auth, body
validation, document lookup and ownership, non-empty trimmed content check,
the external generateSong call (its outcome given by `api`), and on success
the insertion of the new row.  Returns the HTTP-level outcome and the
resulting songs table. -/
def songGenerationPost (userId : Option String) (rawBody : Option RawGenerateBody)
    (docs : List Document)
    (api : SongGenerationRequest → Except String SongGenerationResponse)
    (table : List Song) (newId : String) (now : Nat) : GenResponse × List Song :=
  match userId with
  | none => (.unauthorized, table)
  | some uid =>
    match rawBody with
    | none => (.invalidRequest, table)
    | some raw =>
      match parseGenerateSongBody raw with
      | none => (.invalidRequest, table)
      | some b =>
        match docs.find? (fun d => d.id = b.documentId) with
        | none => (.documentNotFound, table)
        | some doc =>
          if doc.userId ≠ uid then (.accessDenied, table)
          else
            let content := doc.content.getD ""
            if (jsTrim content).length = 0 then (.noContent, table)
            else
              match api (songRequestOf content b.model) with
              | .error msg => (.apiError msg, table)
              | .ok resp =>
                (.created newId resp.id resp.status,
                 table ++ [songDataOf newId b.documentId resp now])

/-- The mutual-exclusion invariant: a song never has both the result url and
the failure reason set. -/
def mutualExclusion (s : Song) : Prop := s.songUrl = none ∨ s.failedReason = none

/-- A webhook payload writes the url field: status succeeded with a nonempty
choices list whose first choice has a truthy url. -/
def webhookWritesUrl (p : WebhookPayload) : Bool :=
  p.status = "succeeded" &&
    match p.choices with
    | some (c :: _) =>
      match c.url with
      | some u => u ≠ ""
      | none => false
    | _ => false

/-- A webhook payload writes the failure reason: status failed with a truthy
failed_reason. -/
def webhookWritesReason (p : WebhookPayload) : Bool :=
  p.status = "failed" &&
    match p.failed_reason with
    | some r => r ≠ ""
    | none => false

/-- A fetched status report writes the url field (pull path). -/
def pullWritesUrl (st : SongGenerationResponse) : Bool :=
  st.status = "succeeded" &&
    match st.choices with
    | some (c :: _) =>
      match c.url with
      | some u => u ≠ ""
      | none => false
    | _ => false

/-- A fetched status report writes the failure reason (pull path). -/
def pullWritesReason (st : SongGenerationResponse) : Bool :=
  st.status = "failed" &&
    match st.failed_reason with
    | some r => r ≠ ""
    | none => false

/-- The url of the first choice of a webhook payload, when any. -/
def payloadFirstUrl (p : WebhookPayload) : Option String :=
  match p.choices with
  | some (c :: _) => c.url
  | _ => none

/-- The url of the first choice of a fetched status report, when any. -/
def responseFirstUrl (st : SongGenerationResponse) : Option String :=
  match st.choices with
  | some (c :: _) => c.url
  | _ => none

/-- Field-level characterization of the webhook update. -/
theorem applyWebhookUpdate_eq (s : Song) (p : WebhookPayload) (now : Nat) :
    applyWebhookUpdate s p now =
      { s with
        status := p.status
        updatedAt := now
        songUrl := if webhookWritesUrl p = true then payloadFirstUrl p else s.songUrl
        failedReason :=
          if webhookWritesReason p = true then p.failed_reason else s.failedReason } := by
  unfold applyWebhookUpdate webhookWritesUrl webhookWritesReason payloadFirstUrl
  by_cases hs : p.status = "succeeded" <;> by_cases hf : p.status = "failed"
  · rw [hs] at hf; exact absurd hf (by decide)
  · rcases hc : p.choices with _ | (_ | ⟨c, rest⟩)
    · simp [hs, hf, hc]
    · simp [hs, hf, hc]
    · rcases hu : c.url with _ | u
      · simp [hs, hf, hc, hu]
      · by_cases he : u = "" <;> simp [hs, hf, hc, hu, he]
  · rcases hr : p.failed_reason with _ | r
    · simp [hs, hf, hr]
    · by_cases he : r = "" <;> simp [hs, hf, hr, he]
  · simp [hs, hf]

/-- Field-level characterization of the pull-path update. -/
theorem applyPullUpdate_eq (s : Song) (st : SongGenerationResponse) (now : Nat) :
    applyPullUpdate s st now =
      { s with
        status := st.status
        updatedAt := now
        songUrl := if pullWritesUrl st = true then responseFirstUrl st else s.songUrl
        failedReason :=
          if pullWritesReason st = true then st.failed_reason else s.failedReason } := by
  unfold applyPullUpdate pullWritesUrl pullWritesReason responseFirstUrl
  by_cases hs : st.status = "succeeded" <;> by_cases hf : st.status = "failed"
  · rw [hs] at hf; exact absurd hf (by decide)
  · rcases hc : st.choices with _ | (_ | ⟨c, rest⟩)
    · simp [hs, hf, hc]
    · simp [hs, hf, hc]
    · rcases hu : c.url with _ | u
      · simp [hs, hf, hc, hu]
      · by_cases he : u = "" <;> simp [hs, hf, hc, hu, he]
  · rcases hr : st.failed_reason with _ | r
    · simp [hs, hf, hr]
    · by_cases he : r = "" <;> simp [hs, hf, hr, he]
  · simp [hs, hf]

/-- Sample Mureka submission response used in concrete scenarios. -/
def sampleResp : SongGenerationResponse :=
  { id := "abc123", created_at := 0, finished_at := none, model := "mureka-6",
    status := "preparing", failed_reason := none, choices := none }

/-- Sample persisted task, exactly as created by a submission. -/
def sampleTask : Song := songDataOf "song-1" "doc-1" sampleResp 0

/-- Sample webhook payload reporting success with an audio url. -/
def succeededPayload : WebhookPayload :=
  { id := "abc123", status := "succeeded", finished_at := some 100,
    failed_reason := none,
    choices := some [{ url := some "https://x/y.mp3", duration := some 30 }] }

/-- Sample webhook payload reporting failure with a reason. -/
def failedPayload : WebhookPayload :=
  { id := "abc123", status := "failed", finished_at := some 200,
    failed_reason := some "content policy violation", choices := none }

/-- Sample webhook payload reporting an intermediate status. -/
def runningPayload : WebhookPayload :=
  { id := "abc123", status := "running", finished_at := none,
    failed_reason := none, choices := none }

/-- C9: the webhook signature validation hook returns true for every
signature string and request body, so the invalid-signature rejection
branch (the 401 response) of the webhook handler is unreachable for all
inputs. -/
theorem C9_signature_validation_always_true :
    ∀ (signature body : String),
      validateMurekaWebhook signature body = true ∧
      ∀ (json : Option WebhookPayload) (table : List Song) (now : Nat),
        (murekaWebhookPost signature body json table now).1
          ≠ WebhookResponse.invalidSignature := by
  intro signature body
  refine ⟨rfl, ?_⟩
  intro json table now
  unfold murekaWebhookPost
  simp only [validateMurekaWebhook, Bool.true_eq_false, if_false]
  cases json with
  | none => simp
  | some raw =>
    cases hsp : webhookSafeParse raw with
    | none => simp [hsp]
    | some payload =>
      simp only [hsp]
      cases hfind : table.find? (fun s => s.murekaTaskId = payload.id) with
      | none => simp [hfind]
      | some song => simp [hfind]

/-- C5: a task whose persisted status is terminal (not preparing, queued or
running) is returned unchanged by the pull-path reconciliation and no
external query is issued for it: the result does not depend on the outcome
of the external fetch at all. -/
theorem C5_terminal_tasks_never_requeried :
    ∀ (s : Song) (fetch : Except String SongGenerationResponse) (now : Nat),
      s.status ∉ inProgressStatuses →
      reconcileSong s fetch now = (s, false) := by
  intro s fetch now h
  unfold reconcileSong
  simp [h]

/-- Witness for C5 at a concrete succeeded task. -/
theorem C5_witness :
    reconcileSong { sampleTask with status := "succeeded" }
        (.error "network down") 7
      = ({ sampleTask with status := "succeeded" }, false) :=
  C5_terminal_tasks_never_requeried
    { sampleTask with status := "succeeded" } (.error "network down") 7 (by decide)

/-- C4: when the external status query fails for a task whose persisted
status is non-terminal, the task is transitioned to status failed with the
non-empty synthetic reason built from the query error, and is no longer
non-terminal. -/
theorem C4_query_failure_forces_failed :
    ∀ (s : Song) (msg : String) (now : Nat),
      s.status ∈ inProgressStatuses →
      (reconcileSong s (.error msg) now).1.status = "failed" ∧
      (reconcileSong s (.error msg) now).1.failedReason
        = some ("API Error: " ++ msg) ∧
      ("API Error: " ++ msg) ≠ "" ∧
      (reconcileSong s (.error msg) now).1.status ∉ inProgressStatuses := by
  intro s msg now h
  unfold reconcileSong
  refine ⟨by simp [h], by simp [h], ?_, by simp [h]; decide⟩
  intro hc
  have hlen := congrArg String.length hc
  rw [String.length_append] at hlen
  have h11 : ("API Error: " : String).length = 11 := rfl
  have h0 : ("" : String).length = 0 := rfl
  rw [h11, h0] at hlen
  omega

/-- Witness for C4 at a concrete in-progress task. -/
theorem C4_witness :
    (reconcileSong sampleTask (.error "network down") 9).1.status = "failed" ∧
    (reconcileSong sampleTask (.error "network down") 9).1.failedReason
      = some "API Error: network down" ∧
    (reconcileSong sampleTask (.error "network down") 9).1.status
      ∉ inProgressStatuses :=
  have h := C4_query_failure_forces_failed sampleTask "network down" 9 (by decide)
  ⟨h.1, h.2.1, h.2.2.2⟩

/-- C10: a status report with status succeeded but with choices absent,
empty, or whose first choice has no url, still moves the task to succeeded
while leaving a null result url null — for both the webhook path and the
pull path. -/
theorem C10_succeeded_without_url_keeps_null :
    ∀ (s : Song) (p : WebhookPayload) (st : SongGenerationResponse) (now : Nat),
      (s.songUrl = none → p.status = "succeeded" →
        (p.choices = none ∨ p.choices = some [] ∨
          (∃ c rest, p.choices = some (c :: rest) ∧ c.url = none)) →
        (applyWebhookUpdate s p now).status = "succeeded" ∧
        (applyWebhookUpdate s p now).songUrl = none) ∧
      (s.songUrl = none → s.status ∈ inProgressStatuses → st.status = "succeeded" →
        (st.choices = none ∨ st.choices = some [] ∨
          (∃ c rest, st.choices = some (c :: rest) ∧ c.url = none)) →
        (reconcileSong s (.ok st) now).1.status = "succeeded" ∧
        (reconcileSong s (.ok st) now).1.songUrl = none) := by
  intro s p st now
  constructor
  · intro hnone hst hch
    have hwu : webhookWritesUrl p = false := by
      unfold webhookWritesUrl
      rcases hch with h | h | ⟨c, rest, h, hu⟩
      · simp [h]
      · simp [h]
      · simp [h, hu]
    simp [applyWebhookUpdate_eq, hwu, hnone, hst]
  · intro hnone hin hst hch
    have hne : st.status ≠ s.status := by
      intro he
      rw [hst] at he
      rw [← he] at hin
      exact absurd hin (by decide)
    have hwu : pullWritesUrl st = false := by
      unfold pullWritesUrl
      rcases hch with h | h | ⟨c, rest, h, hu⟩
      · simp [h]
      · simp [h]
      · simp [h, hu]
    have h1 : reconcileSong s (.ok st) now = (applyPullUpdate s st now, true) := by
      unfold reconcileSong
      simp [hin, hne]
    rw [h1]
    simp [applyPullUpdate_eq, hwu, hnone, hst]

/-- Witness for C10: a succeeded report whose single choice has no url. -/
theorem C10_witness :
    (applyWebhookUpdate sampleTask
        { id := "abc123", status := "succeeded", finished_at := some 100,
          failed_reason := none,
          choices := some [{ url := none, duration := some 30 }] } 4).status
      = "succeeded" ∧
    (applyWebhookUpdate sampleTask
        { id := "abc123", status := "succeeded", finished_at := some 100,
          failed_reason := none,
          choices := some [{ url := none, duration := some 30 }] } 4).songUrl
      = none :=
  (C10_succeeded_without_url_keeps_null sampleTask
      { id := "abc123", status := "succeeded", finished_at := some 100,
        failed_reason := none,
        choices := some [{ url := none, duration := some 30 }] }
      sampleResp 4).1
    (by decide) (by decide)
    (Or.inr (Or.inr ⟨{ url := none, duration := some 30 }, [], rfl, rfl⟩))

/-- Counterexample to C2 as stated: applying the identical webhook update
twice is not byte-for-byte idempotent, because the second application
rewrites updatedAt with the later time. -/
theorem C2_counterexample :
    applyWebhookUpdate (applyWebhookUpdate sampleTask runningPayload 1)
        runningPayload 2
      ≠ applyWebhookUpdate sampleTask runningPayload 1 := by decide

/-- C2 amended: the second application of an identical webhook update
changes no field except updatedAt, which it sets to the time of the second
application; the second pass of the pull-path reconciliation with the same
fetched outcome leaves the persisted record exactly unchanged. -/
theorem C2_amended_second_application :
    (∀ (s : Song) (p : WebhookPayload) (n1 n2 : Nat),
      applyWebhookUpdate (applyWebhookUpdate s p n1) p n2
        = { applyWebhookUpdate s p n1 with updatedAt := n2 }) ∧
    (∀ (s : Song) (fetch : Except String SongGenerationResponse) (n1 n2 : Nat),
      (reconcileSong (reconcileSong s fetch n1).1 fetch n2).1
        = (reconcileSong s fetch n1).1) := by
  constructor
  · intro s p n1 n2
    simp only [applyWebhookUpdate_eq]
    by_cases hw : webhookWritesUrl p = true <;>
      by_cases hr : webhookWritesReason p = true <;>
        simp [hw, hr]
  · intro s fetch n1 n2
    by_cases hin : s.status ∈ inProgressStatuses
    · cases fetch with
      | error msg =>
        have h1 : reconcileSong s (.error msg) n1 = ({ s with status := "failed", failedReason := some ("API Error: " ++ msg), updatedAt := n1 }, true) := by
          unfold reconcileSong
          simp [hin]
        rw [h1]
        have h2 : ("failed" : String) ∉ inProgressStatuses := by decide
        unfold reconcileSong
        simp [h2]
      | ok st =>
        by_cases hne : st.status ≠ s.status
        · have h1 : reconcileSong s (.ok st) n1 = (applyPullUpdate s st n1, true) := by
            unfold reconcileSong
            simp [hin, hne]
          rw [h1]
          have hstat : (applyPullUpdate s st n1).status = st.status := by
            rw [applyPullUpdate_eq]
          by_cases hin2 : st.status ∈ inProgressStatuses
          · have h3 : reconcileSong (applyPullUpdate s st n1) (.ok st) n2
                = (applyPullUpdate s st n1, true) := by
              unfold reconcileSong
              simp [hstat, hin2]
            rw [h3]
          · have h3 : reconcileSong (applyPullUpdate s st n1) (.ok st) n2
                = (applyPullUpdate s st n1, false) := by
              unfold reconcileSong
              simp [hstat, hin2]
            rw [h3]
        · have h1 : reconcileSong s (.ok st) n1 = (s, true) := by
            unfold reconcileSong
            simp [hin, hne]
          rw [h1]
          have h3 : reconcileSong s (.ok st) n2 = (s, true) := by
            unfold reconcileSong
            simp [hin, hne]
          rw [h3]
    · have h1 : reconcileSong s fetch n1 = (s, false) := by
        unfold reconcileSong
        simp [hin]
      rw [h1]
      have h3 : reconcileSong s fetch n2 = (s, false) := by
        unfold reconcileSong
        simp [hin]
      rw [h3]

/-- The task state reached by a submission followed by a succeeded webhook
(url recorded) followed by a failed webhook (reason recorded): both the
result url and the failure reason are non-null. -/
def regressedTask : Song :=
  { id := "song-1", documentId := "doc-1", murekaTaskId := "abc123",
    status := "failed", songUrl := some "https://x/y.mp3",
    failedReason := some "content policy violation",
    prompt := some "rap", model := some "mureka-6",
    createdAt := 0, updatedAt := 2 }

/-- Counterexample to C1 as stated: starting from the record persisted by a
submission, a succeeded webhook that records the audio url followed by a
failed webhook that records a reason leaves a reachable task with both
song_url and failed_reason non-null — the failure update does not clear the
previously recorded success url. -/
theorem C1_counterexample :
    (murekaWebhookPost "sig" "body2" (some failedPayload)
        (murekaWebhookPost "sig" "body1" (some succeededPayload) [sampleTask] 1).2
        2).2
      = [regressedTask] ∧
    ¬ mutualExclusion regressedTask := by
  constructor
  · decide
  · unfold mutualExclusion regressedTask
    simp

/-- C1 amended: submission establishes the mutual-exclusion invariant, and
a webhook or pull-path update preserves it unless a failure update carrying
a truthy reason hits a task whose song url is already non-null, or a
success update carrying a truthy url hits a task whose failure reason is
already non-null (the stale opposite field is never cleared); the pull-path
query-failure fallback preserves it whenever the song url is null. -/
theorem C1_amended_mutual_exclusion :
    (∀ (newId docId : String) (resp : SongGenerationResponse) (now : Nat),
      mutualExclusion (songDataOf newId docId resp now)) ∧
    (∀ (s : Song) (p : WebhookPayload) (now : Nat),
      mutualExclusion s →
      (webhookWritesReason p = true → s.songUrl = none) →
      (webhookWritesUrl p = true → s.failedReason = none) →
      mutualExclusion (applyWebhookUpdate s p now)) ∧
    (∀ (s : Song) (st : SongGenerationResponse) (now : Nat),
      mutualExclusion s →
      (pullWritesReason st = true → s.songUrl = none) →
      (pullWritesUrl st = true → s.failedReason = none) →
      mutualExclusion (reconcileSong s (.ok st) now).1) ∧
    (∀ (s : Song) (msg : String) (now : Nat),
      s.songUrl = none →
      mutualExclusion (reconcileSong s (.error msg) now).1) := by
  refine ⟨?_, ?_, ?_, ?_⟩
  · intro newId docId resp now
    exact Or.inl rfl
  · intro s p now hme h2 h3
    rw [applyWebhookUpdate_eq]
    unfold mutualExclusion at hme ⊢
    by_cases hw : webhookWritesUrl p = true <;>
      by_cases hr : webhookWritesReason p = true
    · exfalso
      simp only [webhookWritesUrl, Bool.and_eq_true, decide_eq_true_eq] at hw
      simp only [webhookWritesReason, Bool.and_eq_true, decide_eq_true_eq] at hr
      have : ("succeeded" : String) = "failed" := hw.1.symm.trans hr.1
      exact absurd this (by decide)
    · exact Or.inr (by simp [hw, hr, h3 hw])
    · exact Or.inl (by simp [hw, hr, h2 hr])
    · rcases hme with h | h
      · exact Or.inl (by simp [hw, h])
      · exact Or.inr (by simp [hr, h])
  · intro s st now hme h2 h3
    by_cases hin : s.status ∈ inProgressStatuses
    · by_cases hne : st.status ≠ s.status
      · have h1 : reconcileSong s (.ok st) now = (applyPullUpdate s st now, true) := by
          unfold reconcileSong
          simp [hin, hne]
        rw [h1]
        rw [applyPullUpdate_eq]
        unfold mutualExclusion at hme ⊢
        by_cases hw : pullWritesUrl st = true <;>
          by_cases hr : pullWritesReason st = true
        · exfalso
          simp only [pullWritesUrl, Bool.and_eq_true, decide_eq_true_eq] at hw
          simp only [pullWritesReason, Bool.and_eq_true, decide_eq_true_eq] at hr
          have : ("succeeded" : String) = "failed" := hw.1.symm.trans hr.1
          exact absurd this (by decide)
        · exact Or.inr (by simp [hw, hr, h3 hw])
        · exact Or.inl (by simp [hw, hr, h2 hr])
        · rcases hme with h | h
          · exact Or.inl (by simp [hw, h])
          · exact Or.inr (by simp [hr, h])
      · have h1 : reconcileSong s (.ok st) now = (s, true) := by
          unfold reconcileSong
          simp [hin, hne]
        rw [h1]
        exact hme
    · have h1 : reconcileSong s (.ok st) now = (s, false) := by
        unfold reconcileSong
        simp [hin]
      rw [h1]
      exact hme
  · intro s msg now hurl
    by_cases hin : s.status ∈ inProgressStatuses
    · have h1 : reconcileSong s (.error msg) now = ({ s with status := "failed", failedReason := some ("API Error: " ++ msg), updatedAt := now }, true) := by
        unfold reconcileSong
        simp [hin]
      rw [h1]
      exact Or.inl (by simp [hurl])
    · have h1 : reconcileSong s (.error msg) now = (s, false) := by
        unfold reconcileSong
        simp [hin]
      rw [h1]
      exact Or.inl hurl

/-- Witness for the amended C1 at concrete inputs. -/
theorem C1_witness :
    mutualExclusion (applyWebhookUpdate sampleTask succeededPayload 1) ∧
    mutualExclusion (reconcileSong sampleTask (.error "network down") 3).1 :=
  ⟨C1_amended_mutual_exclusion.2.1 sampleTask succeededPayload 1
      (Or.inl rfl) (by decide) (by decide),
    C1_amended_mutual_exclusion.2.2.2 sampleTask "network down" 3 rfl⟩

/-- The synthetic pull-path failure reason is never the empty string. -/
theorem api_error_reason_nonempty (msg : String) : ("API Error: " ++ msg) ≠ "" := by
  intro hc
  have hlen := congrArg String.length hc
  rw [String.length_append] at hlen
  have h11 : ("API Error: " : String).length = 11 := rfl
  have h0 : ("" : String).length = 0 := rfl
  rw [h11, h0] at hlen
  omega

/-- C6: in every webhook or pull-path status update, the url field changes
only under a succeeded report whose first choice carries a truthy url, the
failure reason changes only under a failure outcome with a truthy reason,
and the fields other than status, url, reason and updatedAt — in particular
the external task identifier — are never modified. -/
theorem C6_update_frame_conditions :
    (∀ (s : Song) (p : WebhookPayload) (now : Nat),
      ((applyWebhookUpdate s p now).songUrl ≠ s.songUrl →
        p.status = "succeeded" ∧ webhookWritesUrl p = true ∧
        (applyWebhookUpdate s p now).songUrl = payloadFirstUrl p) ∧
      ((applyWebhookUpdate s p now).failedReason ≠ s.failedReason →
        p.status = "failed" ∧ webhookWritesReason p = true ∧
        (applyWebhookUpdate s p now).failedReason = p.failed_reason) ∧
      (applyWebhookUpdate s p now).id = s.id ∧
      (applyWebhookUpdate s p now).documentId = s.documentId ∧
      (applyWebhookUpdate s p now).murekaTaskId = s.murekaTaskId ∧
      (applyWebhookUpdate s p now).prompt = s.prompt ∧
      (applyWebhookUpdate s p now).model = s.model ∧
      (applyWebhookUpdate s p now).createdAt = s.createdAt) ∧
    (∀ (s : Song) (fetch : Except String SongGenerationResponse) (now : Nat),
      ((reconcileSong s fetch now).1.songUrl ≠ s.songUrl →
        ∃ st, fetch = .ok st ∧ st.status = "succeeded" ∧ pullWritesUrl st = true ∧
          (reconcileSong s fetch now).1.songUrl = responseFirstUrl st) ∧
      ((reconcileSong s fetch now).1.failedReason ≠ s.failedReason →
        (reconcileSong s fetch now).1.status = "failed" ∧
        ∃ r, (reconcileSong s fetch now).1.failedReason = some r ∧ r ≠ "") ∧
      (reconcileSong s fetch now).1.id = s.id ∧
      (reconcileSong s fetch now).1.documentId = s.documentId ∧
      (reconcileSong s fetch now).1.murekaTaskId = s.murekaTaskId ∧
      (reconcileSong s fetch now).1.prompt = s.prompt ∧
      (reconcileSong s fetch now).1.model = s.model ∧
      (reconcileSong s fetch now).1.createdAt = s.createdAt) := by
  constructor
  · intro s p now
    simp only [applyWebhookUpdate_eq]
    refine ⟨?_, ?_, ?_, ?_, ?_, ?_, ?_, ?_⟩ <;> try trivial
    · intro hch
      by_cases hw : webhookWritesUrl p = true
      · have hs : p.status = "succeeded" := by
          simp only [webhookWritesUrl, Bool.and_eq_true, decide_eq_true_eq] at hw
          exact hw.1
        exact ⟨hs, hw, by simp [hw]⟩
      · exact absurd (by simp [hw]) hch
    · intro hch
      by_cases hr : webhookWritesReason p = true
      · have hs : p.status = "failed" := by
          simp only [webhookWritesReason, Bool.and_eq_true, decide_eq_true_eq] at hr
          exact hr.1
        exact ⟨hs, hr, by simp [hr]⟩
      · exact absurd (by simp [hr]) hch
  · intro s fetch now
    by_cases hin : s.status ∈ inProgressStatuses
    · cases fetch with
      | error msg =>
        have h1 : reconcileSong s (.error msg) now = ({ s with status := "failed", failedReason := some ("API Error: " ++ msg), updatedAt := now }, true) := by
          unfold reconcileSong
          simp [hin]
        rw [h1]
        refine ⟨?_, ?_, rfl, rfl, rfl, rfl, rfl, rfl⟩
        · intro hch
          exact absurd rfl hch
        · intro _
          exact ⟨rfl, "API Error: " ++ msg, rfl, api_error_reason_nonempty msg⟩
      | ok st =>
        by_cases hne : st.status ≠ s.status
        · have h1 : reconcileSong s (.ok st) now = (applyPullUpdate s st now, true) := by
            unfold reconcileSong
            simp [hin, hne]
          rw [h1]
          simp only [applyPullUpdate_eq]
          refine ⟨?_, ?_, ?_, ?_, ?_, ?_, ?_, ?_⟩ <;> try trivial
          · intro hch
            by_cases hw : pullWritesUrl st = true
            · have hs : st.status = "succeeded" := by
                simp only [pullWritesUrl, Bool.and_eq_true, decide_eq_true_eq] at hw
                exact hw.1
              exact ⟨st, rfl, hs, hw, by simp [hw]⟩
            · exact absurd (by simp [hw]) hch
          · intro hch
            by_cases hr : pullWritesReason st = true
            · simp only [pullWritesReason, Bool.and_eq_true, decide_eq_true_eq] at hr
              rcases hfr : st.failed_reason with _ | r
              · rw [hfr] at hr
                exact absurd hr.2 (by simp)
              · rw [hfr] at hr
                have hrne : r ≠ "" := by simpa using hr.2
                refine ⟨by simp [hr.1], r, ?_, hrne⟩
                have hrb : pullWritesReason st = true := by
                  simp only [pullWritesReason, Bool.and_eq_true, decide_eq_true_eq]
                  refine ⟨hr.1, ?_⟩
                  rw [hfr]
                  simpa using hrne
                simp [hrb, hfr]
            · exact absurd (by simp [hr]) hch
        · have h1 : reconcileSong s (.ok st) now = (s, true) := by
            unfold reconcileSong
            simp [hin, hne]
          rw [h1]
          exact ⟨fun hch => absurd rfl hch, fun hch => absurd rfl hch,
            rfl, rfl, rfl, rfl, rfl, rfl⟩
    · have h1 : reconcileSong s fetch now = (s, false) := by
        unfold reconcileSong
        simp [hin]
      rw [h1]
      exact ⟨fun hch => absurd rfl hch, fun hch => absurd rfl hch,
        rfl, rfl, rfl, rfl, rfl, rfl⟩

/-- Witness for C6: a concrete succeeded webhook that records the url, with
the external identifier untouched. -/
theorem C6_witness :
    succeededPayload.status = "succeeded" ∧
    webhookWritesUrl succeededPayload = true ∧
    (applyWebhookUpdate sampleTask succeededPayload 1).songUrl
      = payloadFirstUrl succeededPayload ∧
    (applyWebhookUpdate sampleTask succeededPayload 1).murekaTaskId
      = sampleTask.murekaTaskId := by
  have h := C6_update_frame_conditions.1 sampleTask succeededPayload 1
  have hch : (applyWebhookUpdate sampleTask succeededPayload 1).songUrl
      ≠ sampleTask.songUrl := by decide
  exact ⟨(h.1 hch).1, (h.1 hch).2.1, (h.1 hch).2.2, h.2.2.2.2.1⟩

/-- Sample raw request body for the song generation route. -/
def sampleRaw : RawGenerateBody :=
  { documentId := some "doc-1", prompt := some "caller supplied prompt",
    model := some "mureka-6" }

/-- Sample owned document with lyric content. -/
def sampleDoc : Document :=
  { id := "doc-1", userId := "user-1", title := "My song",
    content := some "verse one\nverse two", createdAt := 0, updatedAt := 0 }

/-- Sample document whose content is whitespace only. -/
def emptyDoc : Document :=
  { id := "doc-1", userId := "user-1", title := "My song",
    content := some "   ", createdAt := 0, updatedAt := 0 }

/-- Sample Mureka response whose initial status is queued (not the schema
default preparing). -/
def queuedResp : SongGenerationResponse :=
  { id := "abc123", created_at := 0, finished_at := none, model := "mureka-6",
    status := "queued", failed_reason := none, choices := none }

/-- An external API stub that accepts every request with the queued response. -/
def apiOkQueued : SongGenerationRequest → Except String SongGenerationResponse :=
  fun _ => .ok queuedResp

/-- An external API stub that fails every request. -/
def apiNetworkFail : SongGenerationRequest → Except String SongGenerationResponse :=
  fun _ => .error "network down"

/-- The songs table after the generation route: either unchanged, or
extended with exactly the one new record of a created response. -/
theorem songGenerationPost_table_characterization
    (uid : Option String) (rawBody : Option RawGenerateBody) (docs : List Document)
    (api : SongGenerationRequest → Except String SongGenerationResponse)
    (table : List Song) (newId : String) (now : Nat) :
    (songGenerationPost uid rawBody docs api table newId now).2 = table ∨
    ∃ docId resp,
      (songGenerationPost uid rawBody docs api table newId now).2
        = table ++ [songDataOf newId docId resp now] ∧
      (songGenerationPost uid rawBody docs api table newId now).1
        = .created newId resp.id resp.status := by
  unfold songGenerationPost
  cases uid with
  | none => exact Or.inl rfl
  | some u =>
    cases rawBody with
    | none => exact Or.inl rfl
    | some raw =>
      cases hp : parseGenerateSongBody raw with
      | none => simp [hp]
      | some b =>
        simp only [hp]
        cases hf : docs.find? (fun d => d.id = b.documentId) with
        | none => simp [hf]
        | some doc =>
          simp only [hf]
          by_cases ho : doc.userId ≠ u
          · simp [ho]
          · simp only [ho, ite_false]
            by_cases ht : (jsTrim (doc.content.getD "")).length = 0
            · simp [ho, ht]
            · simp only [ho, ht, ite_false]
              cases ha : api (songRequestOf (doc.content.getD "") b.model) with
              | error msg => simp [ho, ht, ha]
              | ok resp =>
                right
                refine ⟨b.documentId, resp, ?_, ?_⟩ <;> simp [ho, ht, ha]

/-- C3: a submission rejected for empty (or whitespace-only) lyric content
returns the validation error, a submission whose external call fails
returns the API error, and in both cases — indeed whenever no created
response is produced — the songs table is left unchanged. -/
theorem C3_failed_submission_persists_nothing :
    (∀ (uid : String) (raw : RawGenerateBody) (docs : List Document)
        (api : SongGenerationRequest → Except String SongGenerationResponse)
        (table : List Song) (newId : String) (now : Nat)
        (b : GenerateSongBody) (d : Document),
      parseGenerateSongBody raw = some b →
      docs.find? (fun x => x.id = b.documentId) = some d →
      d.userId = uid →
      (jsTrim (d.content.getD "")).length = 0 →
      songGenerationPost (some uid) (some raw) docs api table newId now
        = (.noContent, table)) ∧
    (∀ (uid : String) (raw : RawGenerateBody) (docs : List Document)
        (api : SongGenerationRequest → Except String SongGenerationResponse)
        (table : List Song) (newId : String) (now : Nat)
        (b : GenerateSongBody) (d : Document) (msg : String),
      parseGenerateSongBody raw = some b →
      docs.find? (fun x => x.id = b.documentId) = some d →
      d.userId = uid →
      (jsTrim (d.content.getD "")).length ≠ 0 →
      api (songRequestOf (d.content.getD "") b.model) = .error msg →
      songGenerationPost (some uid) (some raw) docs api table newId now
        = (.apiError msg, table)) ∧
    (∀ (uid : Option String) (rawBody : Option RawGenerateBody) (docs : List Document)
        (api : SongGenerationRequest → Except String SongGenerationResponse)
        (table : List Song) (newId : String) (now : Nat),
      (∀ sid tid st, (songGenerationPost uid rawBody docs api table newId now).1
          ≠ .created sid tid st) →
      (songGenerationPost uid rawBody docs api table newId now).2 = table) := by
  refine ⟨?_, ?_, ?_⟩
  · intro uid raw docs api table newId now b d hp hf ho ht
    unfold songGenerationPost
    simp [hp, hf, ho, ht]
  · intro uid raw docs api table newId now b d msg hp hf ho ht ha
    unfold songGenerationPost
    simp [hp, hf, ho, ht, ha]
  · intro uid rawBody docs api table newId now hnc
    rcases songGenerationPost_table_characterization uid rawBody docs api table newId now with
      h | ⟨docId, resp, _, h2⟩
    · exact h
    · exact absurd h2 (hnc newId resp.id resp.status)

/-- Witness for C3: a whitespace-only document and a failing external call,
each leaving the concrete table untouched. -/
theorem C3_witness :
    songGenerationPost (some "user-1") (some sampleRaw) [emptyDoc] apiOkQueued
        [sampleTask] "song-3" 3
      = (.noContent, [sampleTask]) ∧
    songGenerationPost (some "user-1") (some sampleRaw) [sampleDoc] apiNetworkFail
        [sampleTask] "song-3" 3
      = (.apiError "network down", [sampleTask]) ∧
    (songGenerationPost (some "user-1") (some sampleRaw) [sampleDoc] apiNetworkFail
        [sampleTask] "song-3" 3).2 = [sampleTask] := by
  refine ⟨?_, ?_, ?_⟩
  · exact C3_failed_submission_persists_nothing.1 "user-1" sampleRaw [emptyDoc]
      apiOkQueued [sampleTask] "song-3" 3
      ⟨"doc-1", some "caller supplied prompt", some "mureka-6"⟩ emptyDoc
      (by decide) (by decide) rfl (by decide)
  · exact C3_failed_submission_persists_nothing.2.1 "user-1" sampleRaw [sampleDoc]
      apiNetworkFail [sampleTask] "song-3" 3
      ⟨"doc-1", some "caller supplied prompt", some "mureka-6"⟩ sampleDoc
      "network down" (by decide) (by decide) rfl (by decide) rfl
  · refine C3_failed_submission_persists_nothing.2.2 (some "user-1") (some sampleRaw)
      [sampleDoc] apiNetworkFail [sampleTask] "song-3" 3 ?_
    intro sid tid st hcon
    have hfst : (songGenerationPost (some "user-1") (some sampleRaw) [sampleDoc]
        apiNetworkFail [sampleTask] "song-3" 3).1 = GenResponse.apiError "network down" := by
      decide
    rw [hfst] at hcon
    exact GenResponse.noConfusion hcon

/-- C7: on the happy path the persisted record stores the external task
identifier and the initial status exactly as returned by the external API
response, and the route reports them back; the status is whatever the
response carried, not a hardcoded value. -/
theorem C7_persists_response_id_and_status :
    ∀ (uid : String) (raw : RawGenerateBody) (docs : List Document)
      (api : SongGenerationRequest → Except String SongGenerationResponse)
      (table : List Song) (newId : String) (now : Nat)
      (b : GenerateSongBody) (d : Document) (resp : SongGenerationResponse),
      parseGenerateSongBody raw = some b →
      docs.find? (fun x => x.id = b.documentId) = some d →
      d.userId = uid →
      (jsTrim (d.content.getD "")).length ≠ 0 →
      api (songRequestOf (d.content.getD "") b.model) = .ok resp →
      songGenerationPost (some uid) (some raw) docs api table newId now
        = (.created newId resp.id resp.status,
           table ++ [songDataOf newId b.documentId resp now]) ∧
      (songDataOf newId b.documentId resp now).murekaTaskId = resp.id ∧
      (songDataOf newId b.documentId resp now).status = resp.status := by
  intro uid raw docs api table newId now b d resp hp hf ho ht ha
  refine ⟨?_, rfl, rfl⟩
  unfold songGenerationPost
  simp [hp, hf, ho, ht, ha]

/-- Witness for C7: the queued initial status of the response is persisted
as queued, not as the schema default preparing. -/
theorem C7_witness :
    songGenerationPost (some "user-1") (some sampleRaw) [sampleDoc] apiOkQueued
        [] "song-7" 5
      = (.created "song-7" "abc123" "queued",
         [songDataOf "song-7" "doc-1" queuedResp 5]) ∧
    (songDataOf "song-7" "doc-1" queuedResp 5).status = "queued" ∧
    (songDataOf "song-7" "doc-1" queuedResp 5).status ≠ "preparing" := by
  have h := C7_persists_response_id_and_status "user-1" sampleRaw [sampleDoc]
    apiOkQueued [] "song-7" 5
    ⟨"doc-1", some "caller supplied prompt", some "mureka-6"⟩ sampleDoc queuedResp
    (by decide) (by decide) rfl (by decide) rfl
  exact ⟨h.1, rfl, by decide⟩

/-- Changing the prompt of a raw body changes only the prompt of the parsed
body: validation never rejects on the prompt. -/
theorem parseGenerateSongBody_prompt (raw : RawGenerateBody) (p : Option String) :
    parseGenerateSongBody { raw with prompt := p }
      = (parseGenerateSongBody raw).map (fun b => { b with prompt := p }) := by
  unfold parseGenerateSongBody
  rcases raw with ⟨d, pr, m⟩
  cases d with
  | none => rfl
  | some dd =>
    simp only
    by_cases hl : dd.length ≥ 1
    · cases m with
      | none => simp [hl]
      | some mm =>
        by_cases hm : mm ∈ ["auto", "mureka-5.5", "mureka-6"] <;> simp [hl, hm]
    · simp [hl]

/-- C8: the style prompt forwarded to the external synthesis API is the
constant "rap" (both in the request object and after the client resolves
the prompt), the route behaves identically for any two caller prompts, and
every record the route persists carries prompt "rap". -/
theorem C8_prompt_always_rap :
    (∀ (content : String) (model : Option String),
      (songRequestOf content model).prompt = some "rap" ∧
      resolvedPrompt (songRequestOf content model) = "rap") ∧
    (∀ (raw : RawGenerateBody) (p q : Option String) (uid : Option String)
        (docs : List Document)
        (api : SongGenerationRequest → Except String SongGenerationResponse)
        (table : List Song) (newId : String) (now : Nat),
      songGenerationPost uid (some { raw with prompt := p }) docs api table newId now
        = songGenerationPost uid (some { raw with prompt := q }) docs api table newId now) ∧
    (∀ (uid : Option String) (rawBody : Option RawGenerateBody) (docs : List Document)
        (api : SongGenerationRequest → Except String SongGenerationResponse)
        (table : List Song) (newId : String) (now : Nat) (r : Song),
      r ∈ (songGenerationPost uid rawBody docs api table newId now).2 →
      r ∈ table ∨ r.prompt = some "rap") := by
  refine ⟨?_, ?_, ?_⟩
  · intro content model
    exact ⟨rfl, rfl⟩
  · intro raw p q uid docs api table newId now
    cases uid with
    | none => rfl
    | some u =>
      unfold songGenerationPost
      cases hpr : parseGenerateSongBody raw with
      | none =>
        simp [parseGenerateSongBody_prompt, hpr]
      | some b =>
        simp only [parseGenerateSongBody_prompt, hpr, Option.map_some']
  · intro uid rawBody docs api table newId now r hr
    rcases songGenerationPost_table_characterization uid rawBody docs api table newId now with
      h | ⟨docId, resp, h2, _⟩
    · rw [h] at hr
      exact Or.inl hr
    · rw [h2] at hr
      rcases List.mem_append.mp hr with h4 | h4
      · exact Or.inl h4
      · right
        rw [List.mem_singleton.mp h4]
        rfl

/-- Witness for C8: with any caller prompt the route forwards and persists
the prompt "rap". -/
theorem C8_witness :
    resolvedPrompt (songRequestOf "verse one" (some "mureka-6")) = "rap" ∧
    songGenerationPost (some "user-1") (some { sampleRaw with prompt := some "disco" })
        [sampleDoc] apiOkQueued [] "song-8" 6
      = songGenerationPost (some "user-1") (some { sampleRaw with prompt := none })
        [sampleDoc] apiOkQueued [] "song-8" 6 ∧
    (songDataOf "song-8" "doc-1" queuedResp 6 ∈ ([] : List Song) ∨
      (songDataOf "song-8" "doc-1" queuedResp 6).prompt = some "rap") := by
  refine ⟨?_, ?_, ?_⟩
  · exact (C8_prompt_always_rap.1 "verse one" (some "mureka-6")).2
  · exact C8_prompt_always_rap.2.1 sampleRaw (some "disco") none (some "user-1")
      [sampleDoc] apiOkQueued [] "song-8" 6
  · exact C8_prompt_always_rap.2.2 (some "user-1")
      (some { sampleRaw with prompt := some "disco" }) [sampleDoc] apiOkQueued
      [] "song-8" 6 (songDataOf "song-8" "doc-1" queuedResp 6) (by decide)
